import Mathlib

/-
  Verification of the raptor TCP-server connection-management core.

  The definitions below are a shallow embedding of the server code in
  src/core/linux/tcp_server.cc and src/core/windows/tcp_server.cc.
  Machine integers are modelled as Nat with explicit masks where overflow
  matters; time_t is modelled as Int; fallible code (out-of-bounds vector
  access, null-pointer dereference) returns Option, where none marks the
  fault.  External collaborators (listener, I/O threads, Connection) are
  black boxes: their outcomes appear as Boolean fields of the model.
-/

namespace Raptor

/-! ## Connection identifier codec -/

/-- Modelled from the spec: the codec core::BuildConnectionId /
core::GetMagicNumber / core::GetUserId / core::InvalidConnectionId is part
of this repository but its source file is not under src/ (only its callers
in tcp_server.cc are).  The spec fixes the 64-bit layout
[magic:16 | listen_port:16 | slot_index:32] and an all-ones sentinel.
Arguments are masked to their field widths as the uint16_t/uint32_t
parameters of the C++ codec would truncate them. -/
def BuildConnectionId (magic port index : Nat) : Nat :=
  (magic % 65536) * 2 ^ 48 + (port % 65536) * 2 ^ 32 + index % 2 ^ 32

/-- Modelled from the spec: extract the 16-bit magic field of a cid. -/
def GetMagicNumber (cid : Nat) : Nat :=
  cid / 2 ^ 48 % 65536

/-- Modelled from the spec: extract the 32-bit slot-index field of a cid. -/
def GetUserId (cid : Nat) : Nat :=
  cid % 2 ^ 32

/-- Modelled from the spec: the all-ones sentinel core::InvalidConnectionId. -/
def InvalidConnectionId : Nat := 2 ^ 64 - 1

/-- The uint32_t sentinel static_cast(-1) defined at the top of both
tcp_server.cc files. -/
def InvalidIndex : Nat := 2 ^ 32 - 1

/-! ## Data model -/

/-- RaptorOptions: max_connections is a uint32_t, connection_timeout is in
seconds. -/
structure RaptorOptions where
  max_connections : Nat
  connection_timeout : Int
deriving DecidableEq, Repr

/-- A live Connection object is an external collaborator.  Only its identity
and the outcomes of the calls the server makes into it are modelled: the
Boolean fields are the values the corresponding member functions return. -/
structure Connection where
  cid : Nat
  sendResult : Bool
  doRecvEventOk : Bool
  doSendEventOk : Bool
deriving DecidableEq, Repr

/-- One entry of the std::vector of ConnectionData pairs: first is the
connection pointer (none = nullptr / empty shared_ptr), second is the stored
multimap iterator (none = end(), some e = an iterator at entry e). -/
structure Slot where
  conn : Option Connection
  handle : Option (Int × Nat)
deriving DecidableEq, Repr

/-- A default-constructed slot: null connection, end() iterator. -/
def emptySlot : Slot := { conn := none, handle := none }

/-- std::multimap insert: the entry goes before the first strictly greater
key, i.e. after all entries with an equal key, keeping the list sorted. -/
def tmInsert : List (Int × Nat) → (Int × Nat) → List (Int × Nat)
  | [], e => [e]
  | x :: xs, e => if e.1 < x.1 then e :: x :: xs else x :: tmInsert xs e

/-- Erase the single multimap entry a valid iterator points at (the first
occurrence of that entry in the list). -/
def tmErase1 : List (Int × Nat) → (Int × Nat) → List (Int × Nat)
  | [], _ => []
  | x :: xs, e => if x = e then xs else x :: tmErase1 xs e

/-- Erase through a stored iterator handle.  A none handle is the end()
iterator: erasing it is undefined behaviour in C++; the server only reaches
this with a valid handle, and the model treats it as erasing nothing. -/
def tmErase (l : List (Int × Nat)) : Option (Int × Nat) → List (Int × Nat)
  | none => l
  | some e => tmErase1 l e

/-- Outcomes of the external listener / I/O-thread collaborators created by
Init and started by Start: each field is the value the corresponding Init()
or Start() call returns. -/
structure IoComponents where
  listenerInitOk : Bool
  recvInitOk : Bool
  sendInitOk : Bool
  listenerStartOk : Bool
  recvStartOk : Bool
  sendStartOk : Bool
deriving DecidableEq, Repr

/-- State of a TcpServer object.  components models the shared_ptr fields
holding the listener and I/O threads: none on a freshly constructed server
(null pointers), some after Init created them.  mpscq is the handoff queue
content (abstract node identifiers) and count the atomic pending counter. -/
structure ServerState where
  shutdown : Bool
  options : RaptorOptions
  magic_number : Nat
  components : Option IoComponents
  mgr : List Slot
  timeout_record_list : List (Int × Nat)
  free_index_list : List Nat
  last_timeout_time : Int
  mpscq : List Nat
  count : Nat
deriving DecidableEq, Repr

/-- A freshly constructed TcpServer: the constructor only sets
shutdown = true; every container is empty and no components exist. -/
def freshServer : ServerState :=
  { shutdown := true
    options := { max_connections := 0, connection_timeout := 0 }
    magic_number := 0
    components := none
    mgr := []
    timeout_record_list := []
    free_index_list := []
    last_timeout_time := 0
    mpscq := []
    count := 0 }

/-- std::vector resize with value-initialised (empty) new slots. -/
def vresize (l : List Slot) (n : Nat) : List Slot :=
  if n ≤ l.length then l.take n else l ++ List.replicate (n - l.length) emptySlot

/-- The magic computed at Init: (time_now >> 16) & 0xffff, for the
non-negative time_t values Now() yields. -/
def magicFromTime (n : Int) : Nat :=
  (n / 65536 % 65536).toNat

/-- RESERVED_CONNECTION_COUNT from the TcpServer class. -/
def RESERVED_CONNECTION_COUNT : Nat := 100

/-! ## TcpServer operations (Linux file; Windows variants are named ...Win
where they differ) -/

/-- TcpServer::Init (linux tcp_server.cc lines 53-95; the windows version
lines 53-90 is identical in every modelled field).  Returns the new state
and the error message, none meaning RAPTOR_ERROR_NONE.  comps carries the
outcomes of the external sub-init calls; note that the early-error branches
return after the component pointers were already reassigned. -/
def Init (s : ServerState) (options : RaptorOptions) (now : Int)
    (comps : IoComponents) : ServerState × Option String :=
  if s.shutdown = false then
    (s, some "tcp server already running")
  else
    let s1 := { s with components := some comps }
    if comps.listenerInitOk = false then (s1, some "listener init failed")
    else if comps.recvInitOk = false then (s1, some "recv thread init failed")
    else if comps.sendInitOk = false then (s1, some "send thread init failed")
    else
      ({ s1 with
          shutdown := false
          options := options
          count := 0
          mgr := vresize s1.mgr RESERVED_CONNECTION_COUNT
          free_index_list :=
            s1.free_index_list ++ List.range RESERVED_CONNECTION_COUNT
          magic_number := magicFromTime now
          last_timeout_time := now }, none)

/-- TcpServer::Start (linux lines 120-132, windows lines 114-123).  There is
no lifecycle check: the code immediately calls StartListening() through the
listener shared_ptr.  On a fresh server that pointer is null, so the model
returns none (fault); otherwise some carries the error message of the first
failing component, and some none is success. -/
def Start (s : ServerState) : Option (Option String) :=
  match s.components with
  | none => none
  | some comps =>
    if comps.listenerStartOk = false then some (some "failed to start listener")
    else if comps.recvStartOk = false then some (some "failed to start recv thread")
    else if comps.sendStartOk = false then some (some "failed to start send thread")
    else some none

/-- TcpServer::Shutdown (linux lines 134-166): guarded by the shutdown flag;
stops components, clears the timeout index, free list and slot table, then
drains the message queue decrementing the counter per node. -/
def Shutdown (s : ServerState) : ServerState :=
  if s.shutdown then s
  else
    { s with
        shutdown := true
        timeout_record_list := []
        free_index_list := []
        mgr := []
        mpscq := []
        count := s.count - s.mpscq.length }

/-- The TcpServer destructor (linux lines 47-51): calls Shutdown when the
shutdown flag is still false. -/
def destructor (s : ServerState) : ServerState :=
  if s.shutdown then s else Shutdown s

/-- TcpServer::CheckConnectionId (linux lines 439-454, windows lines
430-445): reject the sentinel, a foreign magic, and an index at or above
max_connections; otherwise return the embedded index. -/
def CheckConnectionId (s : ServerState) (cid : Nat) : Nat :=
  if cid = InvalidConnectionId then InvalidIndex
  else if GetMagicNumber cid ≠ s.magic_number then InvalidIndex
  else if s.options.max_connections ≤ GetUserId cid then InvalidIndex
  else GetUserId cid

/-- TcpServer::DeleteConnection, linux version (lines 379-385).  No guard:
it unconditionally deletes the pointer, nulls the slot, erases the stored
iterator and pushes the index onto the free list. -/
def DeleteConnection (s : ServerState) (index : Nat) : ServerState :=
  { s with
      mgr := s.mgr.set index emptySlot
      timeout_record_list :=
        tmErase s.timeout_record_list (s.mgr.getD index emptySlot).handle
      free_index_list := s.free_index_list ++ [index] }

/-- TcpServer::DeleteConnection, windows version (lines 353-362): returns
immediately when the slot holds no connection. -/
def DeleteConnectionWin (s : ServerState) (index : Nat) : ServerState :=
  match (s.mgr.getD index emptySlot).conn with
  | none => s
  | some _ =>
    { s with
        mgr := s.mgr.set index emptySlot
        timeout_record_list :=
          tmErase s.timeout_record_list (s.mgr.getD index emptySlot).handle
        free_index_list := s.free_index_list ++ [index] }

/-- TcpServer::RefreshTime, windows version (lines 364-372): no-op on an
empty slot, otherwise erase the old timeout entry and insert the new
deadline, storing the new iterator. -/
def RefreshTime (s : ServerState) (index : Nat) (now : Int) : ServerState :=
  match (s.mgr.getD index emptySlot).conn with
  | none => s
  | some c =>
    let deadline := now + s.options.connection_timeout
    { s with
        timeout_record_list :=
          tmInsert (tmErase s.timeout_record_list
            (s.mgr.getD index emptySlot).handle) (deadline, index)
        mgr := s.mgr.set index
          { conn := some c, handle := some (deadline, index) } }

/-- TcpServer::Send, linux version (lines 168-178).  After validation the
code indexes the vector without a bounds check; an index at or beyond the
table length is an out-of-bounds access, modelled as none.  On a live slot
the result is what Connection::Send returns. -/
def Send (s : ServerState) (cid : Nat) : Option Bool :=
  let index := CheckConnectionId s cid
  if index = InvalidIndex then some false
  else
    match s.mgr[index]? with
    | none => none
    | some slot =>
      match slot.conn with
      | some c => some c.sendResult
      | none => some false

/-- TcpServer::OnNewConnection, linux version (lines 195-226).  Returns the
new state and true when the connection was admitted, false when the attempt
was refused (logged, socket shut down, state unchanged).  The new Connection
is created live; its per-call outcome fields are irrelevant here and set to
true. -/
def OnNewConnection (s : ServerState) (listen_port : Nat) (now : Int) :
    ServerState × Bool :=
  if s.free_index_list.isEmpty ∧ s.options.max_connections ≤ s.mgr.length then
    (s, false)
  else
    let s :=
      if s.free_index_list.isEmpty then
        let count := s.mgr.length
        let expand :=
          if count * 2 < s.options.max_connections then count * 2
          else s.options.max_connections
        { s with
            mgr := vresize s.mgr expand
            free_index_list :=
              s.free_index_list ++ (List.range expand).drop count }
      else s
    let index := s.free_index_list.headD 0
    let rest := s.free_index_list.tail
    let cid := BuildConnectionId s.magic_number listen_port index
    let deadline := now + s.options.connection_timeout
    let conn : Connection :=
      { cid := cid, sendResult := true, doRecvEventOk := true,
        doSendEventOk := true }
    ({ s with
        free_index_list := rest
        mgr := s.mgr.set index
          { conn := some conn, handle := some (deadline, index) }
        timeout_record_list :=
          tmInsert s.timeout_record_list (deadline, index) }, true)

/-- TcpServer::OnNewConnection, windows version (lines 195-239).  Identical
grow-or-reject and allocation; it then hands the socket to IOCP and submits
the first asynchronous read.  asyncRecvVal is the Boolean value the
conn->AsyncRecv() call returns; per the Connection contract of the spec
(whose bool results, like onRecvEvent, report success) true means the post
succeeded.  The code installs the slot on the false branch and recycles the
index on the true branch. -/
def OnNewConnectionWin (s : ServerState) (listen_port : Nat) (now : Int)
    (asyncRecvVal : Bool) : ServerState × Bool :=
  if s.free_index_list.isEmpty ∧ s.options.max_connections ≤ s.mgr.length then
    (s, false)
  else
    let s :=
      if s.free_index_list.isEmpty then
        let count := s.mgr.length
        let expand :=
          if count * 2 < s.options.max_connections then count * 2
          else s.options.max_connections
        { s with
            mgr := vresize s.mgr expand
            free_index_list :=
              s.free_index_list ++ (List.range expand).drop count }
      else s
    let index := s.free_index_list.headD 0
    let rest := s.free_index_list.tail
    let cid := BuildConnectionId s.magic_number listen_port index
    let deadline := now + s.options.connection_timeout
    let conn : Connection :=
      { cid := cid, sendResult := true, doRecvEventOk := true,
        doSendEventOk := true }
    if asyncRecvVal then
      ({ s with free_index_list := rest ++ [index] }, true)
    else
      ({ s with
          free_index_list := rest
          mgr := s.mgr.set index
            { conn := some conn, handle := some (deadline, index) }
          timeout_record_list :=
            tmInsert s.timeout_record_list (deadline, index) }, true)

/-- TcpServer::OnRecvEvent, linux version (lines 244-262).  After validation
the code calls _mgr[index].first->DoRecvEvent() with no bounds check on the
vector and no null check on the pointer: both faults are none.  On success
the deadline is refreshed in place; on failure the connection is evicted. -/
def OnRecvEvent (s : ServerState) (cid : Nat) (now : Int) :
    Option ServerState :=
  let index := CheckConnectionId s cid
  if index = InvalidIndex then some s
  else
    match s.mgr[index]? with
    | none => none
    | some slot =>
      match slot.conn with
      | none => none
      | some c =>
        if c.doRecvEventOk then
          let deadline := now + s.options.connection_timeout
          some { s with
              timeout_record_list :=
                tmInsert (tmErase s.timeout_record_list slot.handle)
                  (deadline, index)
              mgr := s.mgr.set index
                { conn := some c, handle := some (deadline, index) } }
        else some (DeleteConnection s index)

/-- TcpServer::OnSendEvent, linux version (lines 264-282): same shape as
OnRecvEvent with DoSendEvent. -/
def OnSendEvent (s : ServerState) (cid : Nat) (now : Int) :
    Option ServerState :=
  let index := CheckConnectionId s cid
  if index = InvalidIndex then some s
  else
    match s.mgr[index]? with
    | none => none
    | some slot =>
      match slot.conn with
      | none => none
      | some c =>
        if c.doSendEventOk then
          let deadline := now + s.options.connection_timeout
          some { s with
              timeout_record_list :=
                tmInsert (tmErase s.timeout_record_list slot.handle)
                  (deadline, index)
              mgr := s.mgr.set index
                { conn := some c, handle := some (deadline, index) } }
        else some (DeleteConnection s index)

/-- TcpServer::OnRecvEvent, windows version (lines 257-274): GetConnection
copies the shared_ptr under the lock (still an unchecked vector index, none
on out-of-bounds) and returns when it is empty; otherwise the connection
handles the event, refreshing the deadline on success and being evicted on
failure. -/
def OnRecvEventWin (s : ServerState) (cid : Nat) (now : Int) :
    Option ServerState :=
  let index := CheckConnectionId s cid
  if index = InvalidIndex then some s
  else
    match s.mgr[index]? with
    | none => none
    | some slot =>
      match slot.conn with
      | none => some s
      | some c =>
        if c.doRecvEventOk then some (RefreshTime s index now)
        else some (DeleteConnectionWin s index)

/-- TcpServer::OnSendEvent, windows version (lines 276-293). -/
def OnSendEventWin (s : ServerState) (cid : Nat) (now : Int) :
    Option ServerState :=
  let index := CheckConnectionId s cid
  if index = InvalidIndex then some s
  else
    match s.mgr[index]? with
    | none => none
    | some slot =>
      match slot.conn with
      | none => some s
      | some c =>
        if c.doSendEventOk then some (RefreshTime s index now)
        else some (DeleteConnectionWin s index)

/-- The eviction loop of TcpServer::OnCheckingEvent (linux lines 294-306).
The multimap iterator walks entries in ascending key order and is advanced
before the visited entry is erased by DeleteConnection; under the table
invariant (the stored handle of the slot an entry names is that entry
itself) each eviction erases exactly the visited entry, so walking the
entry list of the map at loop entry coincides with the C++ iteration.  The
first component collects the evicted indices in visit order (the observable
Shutdown calls). -/
def sweepLoop : List (Int × Nat) → Int → ServerState → List Nat × ServerState
  | [], _, s => ([], s)
  | e :: rest, current, s =>
    if current < e.1 then ([], s)
    else
      let r := sweepLoop rest current (DeleteConnection s e.2)
      (e.2 :: r.1, r.2)

/-- TcpServer::OnCheckingEvent, linux version (lines 284-307): rate-limited
to once per second, then stamps the sweep time and runs the eviction loop. -/
def OnCheckingEvent (s : ServerState) (current : Int) :
    List Nat × ServerState :=
  if current - s.last_timeout_time < 1 then ([], s)
  else
    sweepLoop s.timeout_record_list current
      { s with last_timeout_time := current }

/-! ## Concrete states used by the witnesses and counterexamples -/

/-- Component outcomes where every external init and start succeeds. -/
def allOk : IoComponents :=
  { listenerInitOk := true, recvInitOk := true, sendInitOk := true,
    listenerStartOk := true, recvStartOk := true, sendStartOk := true }

/-- Options of the capacity-cap scenario of the spec: max_connections = 2. -/
def c1opts : RaptorOptions := { max_connections := 2, connection_timeout := 60 }

/-- Server right after Init with max_connections = 2 at time 100000. -/
def c1s0 : ServerState := (Init freshServer c1opts 100000 allOk).1

/-- State after the first accepted client. -/
def c1s1 : ServerState := (OnNewConnection c1s0 7 100000).1

/-- State after the second accepted client. -/
def c1s2 : ServerState := (OnNewConnection c1s1 7 100000).1

/-- A running server with two empty slots and both indices free. -/
def sW : ServerState :=
  { shutdown := false
    options := { max_connections := 100, connection_timeout := 60 }
    magic_number := 9
    components := some allOk
    mgr := [emptySlot, emptySlot]
    timeout_record_list := []
    free_index_list := [0, 1]
    last_timeout_time := 0
    mpscq := []
    count := 0 }

/-- A running server whose slot table (length 1) is shorter than
max_connections = 2; slot 0 is empty. -/
def s4 : ServerState :=
  { shutdown := false
    options := { max_connections := 2, connection_timeout := 60 }
    magic_number := 5
    components := some allOk
    mgr := [emptySlot]
    timeout_record_list := []
    free_index_list := []
    last_timeout_time := 0
    mpscq := []
    count := 0 }

/-- A live connection used by the concrete states below. -/
def conn1 : Connection :=
  { cid := 0, sendResult := true, doRecvEventOk := true, doSendEventOk := true }

/-- A running server where slot 0 is empty (its connection was closed) and
slot 1 is live: the racing-close scenario. -/
def s10 : ServerState :=
  { shutdown := false
    options := { max_connections := 2, connection_timeout := 60 }
    magic_number := 5
    components := some allOk
    mgr := [emptySlot, { conn := some conn1, handle := some (90, 1) }]
    timeout_record_list := [(90, 1)]
    free_index_list := []
    last_timeout_time := 0
    mpscq := []
    count := 0 }

/-- A second-run server, re-initialised at time 100001 (magic of run one
was taken at time 100000). -/
def s9 : ServerState :=
  { shutdown := false
    options := { max_connections := 4, connection_timeout := 60 }
    magic_number := magicFromTime 100001
    components := some allOk
    mgr := [emptySlot, emptySlot, emptySlot, emptySlot]
    timeout_record_list := []
    free_index_list := []
    last_timeout_time := 100001
    mpscq := []
    count := 0 }

/-- A second-run server, re-initialised at time 200000. -/
def s9b : ServerState :=
  { shutdown := false
    options := { max_connections := 4, connection_timeout := 60 }
    magic_number := magicFromTime 200000
    components := some allOk
    mgr := [emptySlot, emptySlot, emptySlot, emptySlot]
    timeout_record_list := []
    free_index_list := []
    last_timeout_time := 200000
    mpscq := []
    count := 0 }

/-- A server used by the check-connection-id witness. -/
def s3w : ServerState :=
  { shutdown := false
    options := { max_connections := 10, connection_timeout := 60 }
    magic_number := 7
    components := some allOk
    mgr := [emptySlot]
    timeout_record_list := []
    free_index_list := []
    last_timeout_time := 0
    mpscq := []
    count := 0 }

/-- Two live connections for the timeout-sweep witness. -/
def connA : Connection :=
  { cid := 10, sendResult := true, doRecvEventOk := true, doSendEventOk := true }

/-- Second live connection for the timeout-sweep witness. -/
def connB : Connection :=
  { cid := 11, sendResult := true, doRecvEventOk := true, doSendEventOk := true }

/-- A running server with two live slots, deadlines 5 and 20. -/
def sC7 : ServerState :=
  { shutdown := false
    options := { max_connections := 4, connection_timeout := 60 }
    magic_number := 5
    components := some allOk
    mgr := [{ conn := some connA, handle := some (5, 0) },
            { conn := some connB, handle := some (20, 1) }]
    timeout_record_list := [(5, 0), (20, 1)]
    free_index_list := []
    last_timeout_time := 0
    mpscq := []
    count := 0 }

/-! ## Helper lemmas on lists -/

/-- Setting index i does not change reads at another index. -/
theorem getD_set_ne {α : Type} :
    ∀ (l : List α) (i j : Nat) (a d : α), i ≠ j →
      (l.set i a).getD j d = l.getD j d := by
  intro l
  induction l with
  | nil => intro i j a d _; rfl
  | cons x xs ih =>
    intro i j a d hij
    cases i with
    | zero =>
      cases j with
      | zero => exact absurd rfl hij
      | succ j => rfl
    | succ i =>
      cases j with
      | zero => rfl
      | succ j => exact ih i j a d (fun h => hij (congrArg Nat.succ h))

/-- Reading back an in-bounds set index yields the written value. -/
theorem getD_set_self {α : Type} :
    ∀ (l : List α) (i : Nat) (a d : α), i < l.length →
      (l.set i a).getD i d = a := by
  intro l
  induction l with
  | nil => intro i a d h; exact absurd h (Nat.not_lt_zero i)
  | cons x xs ih =>
    intro i a d h
    cases i with
    | zero => rfl
    | succ i => exact ih i a d (Nat.lt_of_succ_lt_succ h)

/-- Writing back the value already stored at an in-bounds index is the
identity. -/
theorem set_getD_self {α : Type} :
    ∀ (l : List α) (i : Nat) (d : α), i < l.length →
      l.set i (l.getD i d) = l := by
  intro l
  induction l with
  | nil => intro i d h; exact absurd h (Nat.not_lt_zero i)
  | cons x xs ih =>
    intro i d h
    cases i with
    | zero => rfl
    | succ i =>
      show x :: xs.set i (xs.getD i d) = x :: xs
      rw [ih i d (Nat.lt_of_succ_lt_succ h)]

/-- In-bounds optional indexing agrees with getD. -/
theorem getElem?_eq_getD {α : Type} :
    ∀ (l : List α) (i : Nat) (d : α), i < l.length →
      l[i]? = some (l.getD i d) := by
  intro l
  induction l with
  | nil => intro i d h; exact absurd h (Nat.not_lt_zero i)
  | cons x xs ih =>
    intro i d h
    cases i with
    | zero => simp [List.getD_cons_zero]
    | succ i =>
      rw [List.getElem?_cons_succ, List.getD_cons_succ]
      exact ih i d (Nat.lt_of_succ_lt_succ h)

/-- A filter keeping nothing. -/
theorem filter_eq_nil_of_none {α : Type} (p : α → Bool) :
    ∀ l : List α, (∀ a ∈ l, p a = false) → l.filter p = [] := by
  intro l
  induction l with
  | nil => intro _; rfl
  | cons x xs ih =>
    intro h
    rw [List.filter_cons_of_neg, ih]
    · intro a ha; exact h a (List.mem_cons_of_mem x ha)
    · simp [h x (List.mem_cons_self x xs)]

/-- A filter keeping everything. -/
theorem filter_eq_self_of_all {α : Type} (p : α → Bool) :
    ∀ l : List α, (∀ a ∈ l, p a = true) → l.filter p = l := by
  intro l
  induction l with
  | nil => intro _; rfl
  | cons x xs ih =>
    intro h
    rw [List.filter_cons_of_pos, ih]
    · intro a ha; exact h a (List.mem_cons_of_mem x ha)
    · exact h x (List.mem_cons_self x xs)

/-- The sweep loop on an empty entry list does nothing. -/
theorem sweepLoop_nil (current : Int) (s : ServerState) :
    sweepLoop [] current s = ([], s) := rfl

/-- The sweep loop stops at the first entry with a future deadline. -/
theorem sweepLoop_cons_stop (e : Int × Nat) (rest : List (Int × Nat))
    (current : Int) (s : ServerState) (h : current < e.1) :
    sweepLoop (e :: rest) current s = ([], s) := by
  unfold sweepLoop
  rw [if_pos h]

/-- Evicted-index trace of a sweep step on an expired head entry. -/
theorem sweepLoop_cons_go_fst (e : Int × Nat) (rest : List (Int × Nat))
    (current : Int) (s : ServerState) (h : ¬ current < e.1) :
    (sweepLoop (e :: rest) current s).1 =
      e.2 :: (sweepLoop rest current (DeleteConnection s e.2)).1 := by
  conv_lhs => unfold sweepLoop
  rw [if_neg h]

/-- Resulting state of a sweep step on an expired head entry. -/
theorem sweepLoop_cons_go_snd (e : Int × Nat) (rest : List (Int × Nat))
    (current : Int) (s : ServerState) (h : ¬ current < e.1) :
    (sweepLoop (e :: rest) current s).2 =
      (sweepLoop rest current (DeleteConnection s e.2)).2 := by
  conv_lhs => unfold sweepLoop
  rw [if_neg h]

/-- Full characterisation of the eviction loop, under the slot-table
invariant: the entry list is the timeout multimap (sorted by deadline, one
entry per index), and each listed index names an in-bounds live slot whose
stored iterator is that entry.  The loop then (1) evicts exactly the
indices of the entries with deadline at most current, in list order, (2)
leaves the timeout list holding exactly the unexpired entries, (3) does not
touch slots outside the entry list, (4) keeps every unexpired slot
unchanged, and (5) clears the connection of every expired slot. -/
theorem sweepLoop_spec (current : Int) :
    ∀ (L : List (Int × Nat)) (s : ServerState),
      s.timeout_record_list = L →
      L.Pairwise (fun a b => a.1 ≤ b.1) →
      (L.map Prod.snd).Nodup →
      (∀ e ∈ L, e.2 < s.mgr.length ∧
        (s.mgr.getD e.2 emptySlot).handle = some e ∧
        ((s.mgr.getD e.2 emptySlot).conn).isSome = true) →
      (sweepLoop L current s).1 =
          (L.filter (fun e => decide (e.1 ≤ current))).map Prod.snd
        ∧ (sweepLoop L current s).2.timeout_record_list =
            L.filter (fun e => decide (current < e.1))
        ∧ (∀ j, j ∉ L.map Prod.snd →
            (sweepLoop L current s).2.mgr.getD j emptySlot =
              s.mgr.getD j emptySlot)
        ∧ (∀ e ∈ L, current < e.1 →
            (sweepLoop L current s).2.mgr.getD e.2 emptySlot =
              s.mgr.getD e.2 emptySlot)
        ∧ (∀ e ∈ L, e.1 ≤ current →
            ((sweepLoop L current s).2.mgr.getD e.2 emptySlot).conn = none) := by
  intro L
  induction L with
  | nil =>
    intro s hL _ _ _
    rw [sweepLoop_nil]
    refine ⟨rfl, by simpa using hL, fun j _ => rfl,
      fun e he => absurd he (List.not_mem_nil e),
      fun e he => absurd he (List.not_mem_nil e)⟩
  | cons e rest ih =>
    intro s hL hsort hnodup hlive
    have hsort_rest : rest.Pairwise (fun a b => a.1 ≤ b.1) :=
      (List.pairwise_cons.mp hsort).2
    have hsort_head : ∀ b ∈ rest, e.1 ≤ b.1 := (List.pairwise_cons.mp hsort).1
    have hnodup2 : e.2 ∉ rest.map Prod.snd ∧ (rest.map Prod.snd).Nodup := by
      rw [List.map_cons] at hnodup
      exact List.nodup_cons.mp hnodup
    by_cases hnow : current < e.1
    · rw [sweepLoop_cons_stop e rest current s hnow]
      have hall_gt : ∀ b ∈ e :: rest, current < b.1 := by
        intro b hb
        rcases List.mem_cons.mp hb with hb | hb
        · rw [hb]; exact hnow
        · exact lt_of_lt_of_le hnow (hsort_head b hb)
      refine ⟨?_, ?_, fun j _ => rfl, fun e2 _ _ => rfl, ?_⟩
      · rw [filter_eq_nil_of_none _ (e :: rest) ?_]
        · rfl
        · intro a ha
          simp only [decide_eq_false_iff_not, not_le]
          exact hall_gt a ha
      · rw [filter_eq_self_of_all _ (e :: rest) ?_]
        · exact hL
        · intro a ha
          simp only [decide_eq_true_eq]
          exact hall_gt a ha
      · intro e2 he2 hle2
        exact absurd (hall_gt e2 he2) (not_lt.mpr hle2)
    · have hle : e.1 ≤ current := not_lt.mp hnow
      obtain ⟨hlen_e, hhandle_e, _hconn_e⟩ := hlive e (List.mem_cons_self e rest)
      have h_s2_timeout : (DeleteConnection s e.2).timeout_record_list = rest := by
        unfold DeleteConnection
        show tmErase s.timeout_record_list (s.mgr.getD e.2 emptySlot).handle = rest
        rw [hhandle_e, hL]
        show tmErase1 (e :: rest) e = rest
        unfold tmErase1
        rw [if_pos rfl]
      have h_len2 : (DeleteConnection s e.2).mgr.length = s.mgr.length := by
        unfold DeleteConnection
        show (s.mgr.set e.2 emptySlot).length = s.mgr.length
        exact List.length_set s.mgr e.2 emptySlot
      have h_ne2 : ∀ j, j ≠ e.2 →
          (DeleteConnection s e.2).mgr.getD j emptySlot =
            s.mgr.getD j emptySlot := by
        intro j hj
        unfold DeleteConnection
        show (s.mgr.set e.2 emptySlot).getD j emptySlot = s.mgr.getD j emptySlot
        exact getD_set_ne s.mgr e.2 j emptySlot emptySlot (Ne.symm hj)
      have h_self2 : (DeleteConnection s e.2).mgr.getD e.2 emptySlot =
          emptySlot := by
        unfold DeleteConnection
        show (s.mgr.set e.2 emptySlot).getD e.2 emptySlot = emptySlot
        exact getD_set_self s.mgr e.2 emptySlot emptySlot hlen_e
      have hlive2 : ∀ b ∈ rest, b.2 < (DeleteConnection s e.2).mgr.length ∧
          ((DeleteConnection s e.2).mgr.getD b.2 emptySlot).handle = some b ∧
          (((DeleteConnection s e.2).mgr.getD b.2 emptySlot).conn).isSome = true := by
        intro b hb
        have hbne : b.2 ≠ e.2 := by
          intro hEq
          exact hnodup2.1 (hEq ▸ List.mem_map_of_mem Prod.snd hb)
        obtain ⟨h1, h2, h3⟩ := hlive b (List.mem_cons_of_mem e hb)
        rw [h_len2, h_ne2 b.2 hbne]
        exact ⟨h1, h2, h3⟩
      obtain ⟨ih1, ih2, ih3, ih4, ih5⟩ :=
        ih (DeleteConnection s e.2) h_s2_timeout hsort_rest hnodup2.2 hlive2
      have hfc : (e :: rest).filter (fun x => decide (x.1 ≤ current)) =
          e :: rest.filter (fun x => decide (x.1 ≤ current)) := by
        simp [List.filter_cons, hle]
      have hfc2 : (e :: rest).filter (fun x => decide (current < x.1)) =
          rest.filter (fun x => decide (current < x.1)) := by
        simp [List.filter_cons, hnow]
      refine ⟨?_, ?_, ?_, ?_, ?_⟩
      · rw [sweepLoop_cons_go_fst e rest current s hnow, ih1, hfc, List.map_cons]
      · rw [sweepLoop_cons_go_snd e rest current s hnow, ih2, hfc2]
      · intro j hj
        rw [List.map_cons] at hj
        have hj1 : j ≠ e.2 := by
          intro h
          exact hj (h ▸ List.mem_cons_self e.2 (rest.map Prod.snd))
        have hj2 : j ∉ rest.map Prod.snd :=
          fun h => hj (List.mem_cons_of_mem e.2 h)
        rw [sweepLoop_cons_go_snd e rest current s hnow, ih3 j hj2, h_ne2 j hj1]
      · intro e2 he2 hgt
        rcases List.mem_cons.mp he2 with h | h
        · exfalso
          rw [h] at hgt
          exact hnow hgt
        · have hbne : e2.2 ≠ e.2 := by
            intro hEq
            exact hnodup2.1 (hEq ▸ List.mem_map_of_mem Prod.snd h)
          rw [sweepLoop_cons_go_snd e rest current s hnow, ih4 e2 h hgt,
            h_ne2 e2.2 hbne]
      · intro e2 he2 hle2
        rcases List.mem_cons.mp he2 with h | h
        · rw [h, sweepLoop_cons_go_snd e rest current s hnow,
            ih3 e.2 hnodup2.1, h_self2]
          rfl
        · rw [sweepLoop_cons_go_snd e rest current s hnow]
          exact ih5 e2 h hle2

/-! ## Codec lemmas -/

/-- The magic field of a built cid is the magic argument modulo 2^16. -/
theorem getMagic_build (m p i : Nat) :
    GetMagicNumber (BuildConnectionId m p i) = m % 65536 := by
  unfold GetMagicNumber BuildConnectionId
  omega

/-- The index field of a built cid is the index argument modulo 2^32. -/
theorem getUserId_build (m p i : Nat) :
    GetUserId (BuildConnectionId m p i) = i % 2 ^ 32 := by
  unfold GetUserId BuildConnectionId
  omega

/-- The magic derived from any time value fits in 16 bits. -/
theorem magicFromTime_lt (t : Int) : magicFromTime t < 65536 := by
  unfold magicFromTime
  omega

/-- A built cid whose index field is not all-ones differs from the
sentinel. -/
theorem build_ne_invalid (m p i : Nat) (hi : i < 2 ^ 32 - 1) :
    BuildConnectionId m p i ≠ InvalidConnectionId := by
  intro h
  have h2 := congrArg GetUserId h
  rw [getUserId_build] at h2
  unfold GetUserId InvalidConnectionId at h2
  omega

/-! ## Claim theorems -/

/-- C3: for every 64-bit cid, CheckConnectionId returns the sentinel
InvalidIndex exactly when the cid equals the Invalid sentinel, or its magic
field differs from the server magic, or its embedded index is at or above
options.max_connections; otherwise it returns the embedded index.
(max_connections is a uint32_t, hence below 2^32.) -/
theorem c3_checkConnectionId_spec (s : ServerState) (cid : Nat)
    (_hcid : cid < 2 ^ 64) (hmax : s.options.max_connections < 2 ^ 32) :
    (CheckConnectionId s cid = InvalidIndex ↔
      (cid = InvalidConnectionId ∨ GetMagicNumber cid ≠ s.magic_number ∨
        s.options.max_connections ≤ GetUserId cid))
    ∧ (CheckConnectionId s cid ≠ InvalidIndex →
        CheckConnectionId s cid = GetUserId cid) := by
  unfold CheckConnectionId
  split_ifs with h1 h2 h3
  · constructor
    · simp [h1]
    · intro h; exact absurd rfl h
  · constructor
    · simp [h2]
    · intro h; exact absurd rfl h
  · constructor
    · simp [h3]
    · intro h; exact absurd rfl h
  · have hu : GetUserId cid < s.options.max_connections := Nat.lt_of_not_le h3
    have hne : GetUserId cid ≠ InvalidIndex := by
      unfold InvalidIndex
      omega
    refine ⟨⟨fun h => absurd h hne, ?_⟩, fun _ => rfl⟩
    rintro (h | h | h)
    · exact absurd h h1
    · exact absurd h h2
    · exact absurd h h3

/-- Witness for C3 at a concrete server and cid. -/
theorem c3_checkConnectionId_spec_witness :
    (BuildConnectionId 7 3 4 < 2 ^ 64 ∧ s3w.options.max_connections < 2 ^ 32)
    ∧ ((CheckConnectionId s3w (BuildConnectionId 7 3 4) = InvalidIndex ↔
        (BuildConnectionId 7 3 4 = InvalidConnectionId ∨
          GetMagicNumber (BuildConnectionId 7 3 4) ≠ s3w.magic_number ∨
          s3w.options.max_connections ≤ GetUserId (BuildConnectionId 7 3 4)))
      ∧ (CheckConnectionId s3w (BuildConnectionId 7 3 4) ≠ InvalidIndex →
          CheckConnectionId s3w (BuildConnectionId 7 3 4) =
            GetUserId (BuildConnectionId 7 3 4))) :=
  ⟨⟨by decide, by decide⟩,
    c3_checkConnectionId_spec s3w (BuildConnectionId 7 3 4)
      (by decide) (by decide)⟩

/-- C8: a second Shutdown call is a no-op on every component of the server
state (double shutdown equals single shutdown), and the destructor invokes
Shutdown exactly when the server is still running. -/
theorem c8_shutdown_idempotent :
    (∀ s : ServerState, Shutdown (Shutdown s) = Shutdown s)
    ∧ (∀ s : ServerState, s.shutdown = false → destructor s = Shutdown s) := by
  constructor
  · intro s
    unfold Shutdown
    by_cases h : s.shutdown
    · simp [h]
    · simp [h]
  · intro s h
    unfold destructor
    simp [h]

/-- Witness for C8 at a concrete running server. -/
theorem c8_shutdown_idempotent_witness :
    sW.shutdown = false ∧ destructor sW = Shutdown sW
      ∧ Shutdown (Shutdown sW) = Shutdown sW :=
  ⟨by decide, c8_shutdown_idempotent.2 sW (by decide),
    c8_shutdown_idempotent.1 sW⟩

/-- C6 counterexample: Start on a never-initialised server (which is not in
the Initialised state) does not return a structured error: it dereferences
the null listener pointer, modelled as the none outcome. -/
theorem c6_start_unchecked_counterexample :
    freshServer.shutdown = true ∧ freshServer.components = none
      ∧ Start freshServer = none :=
  ⟨rfl, rfl, rfl⟩

/-- C6 amended: init returns a structured error when the server is Running,
leaving its state unchanged; Start performs no lifecycle check at all: on a
server whose components were never created it faults on the null listener
pointer instead of returning an error. -/
theorem c6_lifecycle_amended :
    (∀ (s : ServerState) (opts : RaptorOptions) (now : Int)
        (comps : IoComponents), s.shutdown = false →
        Init s opts now comps = (s, some "tcp server already running"))
    ∧ (∀ s : ServerState, s.components = none → Start s = none) := by
  constructor
  · intro s opts now comps h
    unfold Init
    simp [h]
  · intro s h
    unfold Start
    simp [h]

/-- Witness for C6 at concrete states. -/
theorem c6_lifecycle_amended_witness :
    sW.shutdown = false
      ∧ Init sW c1opts 100000 allOk = (sW, some "tcp server already running")
      ∧ freshServer.components = none ∧ Start freshServer = none :=
  ⟨by decide, c6_lifecycle_amended.1 sW c1opts 100000 allOk (by decide),
    by decide, c6_lifecycle_amended.2 freshServer (by decide)⟩

/-- C4 counterexample: on server s4 the table has length 1 while
max_connections = 2; the cid with matching magic and embedded index 1 passes
validation, yet Send performs an out-of-bounds vector access (none), instead
of returning false: Send is not total on every cid whose embedded index is
below max_connections. -/
theorem c4_send_out_of_bounds_counterexample :
    CheckConnectionId s4 (BuildConnectionId 5 0 1) = 1
      ∧ GetUserId (BuildConnectionId 5 0 1) < s4.options.max_connections
      ∧ s4.mgr.length = 1
      ∧ Send s4 (BuildConnectionId 5 0 1) = none := by
  refine ⟨by decide, by decide, by decide, by decide⟩

/-- C4 amended: Send returns false and leaves the server state unchanged
whenever the cid fails validation, or the validated index is within the slot
table and the slot holds no live connection; it is total for every cid whose
validated index is below the current table length, but an index at or beyond
the table length is an unchecked out-of-bounds access. -/
theorem c4_send_amended (s : ServerState) (cid : Nat) :
    (CheckConnectionId s cid = InvalidIndex → Send s cid = some false)
    ∧ (CheckConnectionId s cid ≠ InvalidIndex →
        CheckConnectionId s cid < s.mgr.length →
        (Send s cid).isSome = true
          ∧ ((s.mgr.getD (CheckConnectionId s cid) emptySlot).conn = none →
              Send s cid = some false)) := by
  constructor
  · intro h
    unfold Send
    simp [h]
  · intro h hlen
    have hget := getElem?_eq_getD s.mgr (CheckConnectionId s cid) emptySlot hlen
    have hsend : Send s cid =
        (match (s.mgr.getD (CheckConnectionId s cid) emptySlot).conn with
          | some c => some c.sendResult
          | none => some false) := by
      unfold Send
      rw [if_neg h, hget]
    rw [hsend]
    cases hc : (s.mgr.getD (CheckConnectionId s cid) emptySlot).conn with
    | none => exact ⟨rfl, fun _ => rfl⟩
    | some c => exact ⟨rfl, fun hx => Option.noConfusion hx⟩

/-- Witness for C4 at a concrete in-bounds empty slot. -/
theorem c4_send_amended_witness :
    CheckConnectionId s4 (BuildConnectionId 5 0 0) ≠ InvalidIndex
      ∧ CheckConnectionId s4 (BuildConnectionId 5 0 0) < s4.mgr.length
      ∧ ((Send s4 (BuildConnectionId 5 0 0)).isSome = true
        ∧ ((s4.mgr.getD (CheckConnectionId s4 (BuildConnectionId 5 0 0))
              emptySlot).conn = none →
            Send s4 (BuildConnectionId 5 0 0) = some false)) :=
  ⟨by decide, by decide,
    (c4_send_amended s4 (BuildConnectionId 5 0 0)).2 (by decide) (by decide)⟩

/-- C5 counterexample: the Linux DeleteConnection called on the already-empty
slot 0 of s4 is not a no-op: it pushes index 0 onto the free list again. -/
theorem c5_delete_empty_not_noop_counterexample :
    (s4.mgr.getD 0 emptySlot).conn = none
      ∧ s4.free_index_list = []
      ∧ (DeleteConnection s4 0).free_index_list = [0]
      ∧ DeleteConnection s4 0 ≠ s4 := by
  refine ⟨by decide, by decide, by decide, by decide⟩

/-- C5 amended: the Windows DeleteConnection on an already-empty slot is a
no-op, hence evicting a slot twice equals evicting it once; the Linux
DeleteConnection on an already-empty in-bounds slot leaves the slot table
and the timeout index unchanged but appends the index to the free list
again, so it is not idempotent (all its callers guard it with a liveness
check). -/
theorem c5_evict_amended :
    (∀ (s : ServerState) (i : Nat),
        (s.mgr.getD i emptySlot).conn = none → DeleteConnectionWin s i = s)
    ∧ (∀ (s : ServerState) (i : Nat), i < s.mgr.length →
        DeleteConnectionWin (DeleteConnectionWin s i) i = DeleteConnectionWin s i)
    ∧ (∀ (s : ServerState) (i : Nat), i < s.mgr.length →
        s.mgr.getD i emptySlot = emptySlot →
        DeleteConnection s i =
          { s with free_index_list := s.free_index_list ++ [i] }) := by
  have hA : ∀ (s : ServerState) (i : Nat),
      (s.mgr.getD i emptySlot).conn = none → DeleteConnectionWin s i = s := by
    intro s i h
    unfold DeleteConnectionWin
    rw [h]
  refine ⟨hA, ?_, ?_⟩
  · intro s i hlen
    cases hc : (s.mgr.getD i emptySlot).conn with
    | none => rw [hA s i hc, hA s i hc]
    | some c =>
      apply hA
      unfold DeleteConnectionWin
      rw [hc]
      show ((s.mgr.set i emptySlot).getD i emptySlot).conn = none
      rw [getD_set_self s.mgr i emptySlot emptySlot hlen]
      rfl
  · intro s i hlen hempty
    unfold DeleteConnection
    have h1 : s.mgr.set i emptySlot = s.mgr := by
      conv_lhs => rw [← hempty]
      exact set_getD_self s.mgr i emptySlot hlen
    have h2 : (s.mgr.getD i emptySlot).handle = none := by
      rw [hempty]
      rfl
    rw [h1, h2]
    rfl

/-- Witness for C5 at the concrete empty slot of s4. -/
theorem c5_evict_amended_witness :
    (s4.mgr.getD 0 emptySlot).conn = none
      ∧ 0 < s4.mgr.length
      ∧ s4.mgr.getD 0 emptySlot = emptySlot
      ∧ DeleteConnectionWin s4 0 = s4
      ∧ DeleteConnectionWin (DeleteConnectionWin s4 0) 0 = DeleteConnectionWin s4 0
      ∧ DeleteConnection s4 0 = { s4 with free_index_list := s4.free_index_list ++ [0] } :=
  ⟨by decide, by decide, by decide,
    c5_evict_amended.1 s4 0 (by decide),
    c5_evict_amended.2.1 s4 0 (by decide),
    c5_evict_amended.2.2 s4 0 (by decide) (by decide)⟩

/-- C1: with max_connections = 2, Init seeds the slot table with
RESERVED_CONNECTION_COUNT = 100 slots and 100 free indices regardless of the
cap, so the reject branch of OnNewConnection (free list empty AND table at
cap) is not reached: the third accept attempt is admitted, slot 2 becomes
live and the free list shrinks to 97 entries, contradicting the claim that
the third client is refused with the slot table left unchanged. -/
theorem c1_capacity_third_accept_not_refused :
    (Init freshServer c1opts 100000 allOk).2 = none
      ∧ c1s0.options.max_connections = 2
      ∧ (OnNewConnection c1s0 7 100000).2 = true
      ∧ (OnNewConnection c1s1 7 100000).2 = true
      ∧ (OnNewConnection c1s2 7 100000).2 = true
      ∧ ((OnNewConnection c1s2 7 100000).1.mgr.getD 2 emptySlot).conn.isSome = true
      ∧ (OnNewConnection c1s2 7 100000).1.free_index_list.length = 97 := by
  refine ⟨by decide, by decide, by decide, by decide, by decide, by decide,
    by decide⟩

/-- C2: on the Windows accept path, when the first asynchronous receive is
posted successfully (AsyncRecv returns true) the code shuts the connection
down and returns the slot index to the free list, leaving the slot empty
and no timeout entry; when posting fails (false) it installs the connection
and inserts the timeout entry.  The two branches are exactly the opposite
of the claimed behaviour. -/
theorem c2_first_async_recv_branches :
    ((OnNewConnectionWin sW 7 1000 true).1.mgr.getD 0 emptySlot).conn = none
      ∧ (OnNewConnectionWin sW 7 1000 true).1.free_index_list = [1, 0]
      ∧ (OnNewConnectionWin sW 7 1000 true).1.timeout_record_list = []
      ∧ ((OnNewConnectionWin sW 7 1000 false).1.mgr.getD 0 emptySlot).conn.isSome = true
      ∧ (OnNewConnectionWin sW 7 1000 false).1.timeout_record_list = [(1060, 0)] := by
  refine ⟨by decide, by decide, by decide, by decide, by decide⟩

/-- C10 counterexample: on the Linux server s10, the cid of closed slot 0
passes validation, yet OnRecvEvent and OnSendEvent dereference the null
connection pointer of the empty slot (none), instead of returning without
change. -/
theorem c10_linux_empty_slot_counterexample :
    CheckConnectionId s10 (BuildConnectionId 5 0 0) = 0
      ∧ (s10.mgr.getD 0 emptySlot).conn = none
      ∧ OnRecvEvent s10 (BuildConnectionId 5 0 0) 50 = none
      ∧ OnSendEvent s10 (BuildConnectionId 5 0 0) 50 = none := by
  refine ⟨by decide, by decide, by decide, by decide⟩

/-- C10 amended: the Windows handlers satisfy the claim: for every cid that
passes validation with its index inside the table but whose slot holds no
live connection, OnRecvEvent and OnSendEvent return with the whole server
state unchanged; the Linux handlers instead dereference the null connection
pointer (the counterexample). -/
theorem c10_handlers_amended (s : ServerState) (cid : Nat) (now : Int)
    (hv : CheckConnectionId s cid ≠ InvalidIndex)
    (hlen : CheckConnectionId s cid < s.mgr.length)
    (hempty : (s.mgr.getD (CheckConnectionId s cid) emptySlot).conn = none) :
    OnRecvEventWin s cid now = some s ∧ OnSendEventWin s cid now = some s := by
  have hget := getElem?_eq_getD s.mgr (CheckConnectionId s cid) emptySlot hlen
  constructor
  · have heq : OnRecvEventWin s cid now =
        (match (s.mgr.getD (CheckConnectionId s cid) emptySlot).conn with
          | none => some s
          | some c =>
            if c.doRecvEventOk then some (RefreshTime s (CheckConnectionId s cid) now)
            else some (DeleteConnectionWin s (CheckConnectionId s cid))) := by
      unfold OnRecvEventWin
      rw [if_neg hv, hget]
    rw [heq, hempty]
  · have heq : OnSendEventWin s cid now =
        (match (s.mgr.getD (CheckConnectionId s cid) emptySlot).conn with
          | none => some s
          | some c =>
            if c.doSendEventOk then some (RefreshTime s (CheckConnectionId s cid) now)
            else some (DeleteConnectionWin s (CheckConnectionId s cid))) := by
      unfold OnSendEventWin
      rw [if_neg hv, hget]
    rw [heq, hempty]

/-- C9 counterexample: the magic is deterministic in the init time; the
times 100000 and 100001 differ, lie in the same 65536-second window, and
produce the same magic, and the second server accepts a cid built against
the magic of the first run (validation returns index 0, not InvalidIndex):
the two runs collide with certainty, not with probability at most 2^-16. -/
theorem c9_magic_collision_counterexample :
    (100000 : Int) ≠ 100001
      ∧ magicFromTime 100000 = magicFromTime 100001
      ∧ s9.magic_number = magicFromTime 100001
      ∧ CheckConnectionId s9 (BuildConnectionId (magicFromTime 100000) 7 0) = 0 := by
  refine ⟨by decide, by decide, by decide, by decide⟩

/-- C9 amended: across a restart boundary, a cid built against the first
magic with an in-range index is rejected by the second validator exactly
when the two magics differ, and the magics differ exactly when the two init
times disagree in bits 16 to 31 of the clock, i.e. in (t / 2^16) mod 2^16;
restarts within the same 65536-second window therefore collide
deterministically (nothing bounds the collision probability by 2^-16). -/
theorem c9_magic_amended (t1 t2 : Int) (s2 : ServerState)
    (hm : s2.magic_number = magicFromTime t2)
    (hmax : s2.options.max_connections < 2 ^ 32)
    (port idx : Nat) (hidx : idx < s2.options.max_connections) :
    (CheckConnectionId s2 (BuildConnectionId (magicFromTime t1) port idx)
        ≠ InvalidIndex ↔ magicFromTime t1 = magicFromTime t2)
    ∧ (magicFromTime t1 = magicFromTime t2 ↔
        t1 / 65536 % 65536 = t2 / 65536 % 65536) := by
  have hm1 : magicFromTime t1 < 65536 := magicFromTime_lt t1
  have hm2 : magicFromTime t2 < 65536 := magicFromTime_lt t2
  have hi32 : idx < 2 ^ 32 := Nat.lt_trans hidx hmax
  have hii : idx < 2 ^ 32 - 1 := by omega
  have hne : BuildConnectionId (magicFromTime t1) port idx ≠ InvalidConnectionId :=
    build_ne_invalid _ _ _ hii
  have hmagic : GetMagicNumber (BuildConnectionId (magicFromTime t1) port idx) =
      magicFromTime t1 := by
    rw [getMagic_build]
    exact Nat.mod_eq_of_lt hm1
  have huid : GetUserId (BuildConnectionId (magicFromTime t1) port idx) = idx := by
    rw [getUserId_build]
    exact Nat.mod_eq_of_lt hi32
  constructor
  · unfold CheckConnectionId
    rw [if_neg hne, hmagic, huid, hm]
    by_cases he : magicFromTime t1 = magicFromTime t2
    · rw [if_neg, if_neg (Nat.not_le_of_lt hidx)]
      · constructor
        · intro _; exact he
        · intro _
          unfold InvalidIndex
          omega
      · intro hx; exact hx he
    · rw [if_pos he]
      constructor
      · intro hx; exact absurd rfl hx
      · intro hx; exact absurd hx he
  · unfold magicFromTime
    constructor
    · intro h; omega
    · intro h; omega

/-- C7: once past the rate limit, a timeout sweep evicts exactly the slots
whose timeout-index deadline is at most current, visiting them in ascending
deadline order (the trace is the index map of the deadline-filtered entry
list, which is sorted); slots with a later deadline keep their connection,
their stored iterator and their timeout entry.  The hypotheses are the
slot-table invariants the server maintains: the multimap is sorted with one
entry per live slot, and each entry names an in-bounds live slot storing
that entry as its iterator. -/
theorem c7_checking_sweep_spec (s : ServerState) (current : Int)
    (hrate : 1 ≤ current - s.last_timeout_time)
    (hsort : s.timeout_record_list.Pairwise (fun a b => a.1 ≤ b.1))
    (hnodup : (s.timeout_record_list.map Prod.snd).Nodup)
    (hlive : ∀ e ∈ s.timeout_record_list, e.2 < s.mgr.length ∧
        (s.mgr.getD e.2 emptySlot).handle = some e ∧
        ((s.mgr.getD e.2 emptySlot).conn).isSome = true) :
    (OnCheckingEvent s current).1 =
        (s.timeout_record_list.filter (fun e => decide (e.1 ≤ current))).map
          Prod.snd
      ∧ (s.timeout_record_list.filter
          (fun e => decide (e.1 ≤ current))).Pairwise (fun a b => a.1 ≤ b.1)
      ∧ (OnCheckingEvent s current).2.timeout_record_list =
          s.timeout_record_list.filter (fun e => decide (current < e.1))
      ∧ (∀ e ∈ s.timeout_record_list, current < e.1 →
          (OnCheckingEvent s current).2.mgr.getD e.2 emptySlot =
            s.mgr.getD e.2 emptySlot)
      ∧ (∀ e ∈ s.timeout_record_list, e.1 ≤ current →
          ((OnCheckingEvent s current).2.mgr.getD e.2 emptySlot).conn = none) := by
  have hcond : ¬ (current - s.last_timeout_time < 1) := by omega
  have hck : OnCheckingEvent s current =
      sweepLoop s.timeout_record_list current
        { s with last_timeout_time := current } := by
    unfold OnCheckingEvent
    rw [if_neg hcond]
  obtain ⟨h1, h2, h3, h4, h5⟩ :=
    sweepLoop_spec current s.timeout_record_list
      { s with last_timeout_time := current } rfl hsort hnodup hlive
  rw [hck]
  exact ⟨h1, hsort.filter _, h2, fun e he hgt => h4 e he hgt, h5⟩

/-- Witness for C7 at a concrete server with deadlines 5 and 20 swept at
time 10: slot 0 expires and slot 1 survives. -/
theorem c7_checking_sweep_spec_witness :
    (1 ≤ (10 : Int) - sC7.last_timeout_time)
      ∧ sC7.timeout_record_list.Pairwise (fun a b => a.1 ≤ b.1)
      ∧ (OnCheckingEvent sC7 10).1 =
          (sC7.timeout_record_list.filter (fun e => decide (e.1 ≤ 10))).map
            Prod.snd
      ∧ (OnCheckingEvent sC7 10).2.timeout_record_list =
          sC7.timeout_record_list.filter (fun e => decide (10 < e.1)) :=
  ⟨by decide, by decide,
    (c7_checking_sweep_spec sC7 10 (by decide) (by decide) (by decide)
      (by decide)).1,
    (c7_checking_sweep_spec sC7 10 (by decide) (by decide) (by decide)
      (by decide)).2.2.1⟩

/-- Witness for C9 at the concrete restart times 100000 and 200000 (distinct
65536-second windows, hence distinct magics and rejection). -/
theorem c9_magic_amended_witness :
    s9b.magic_number = magicFromTime 200000
      ∧ s9b.options.max_connections < 2 ^ 32
      ∧ (0 : Nat) < s9b.options.max_connections
      ∧ ((CheckConnectionId s9b (BuildConnectionId (magicFromTime 100000) 7 0)
            ≠ InvalidIndex ↔ magicFromTime 100000 = magicFromTime 200000)
        ∧ (magicFromTime 100000 = magicFromTime 200000 ↔
            (100000 : Int) / 65536 % 65536 = (200000 : Int) / 65536 % 65536)) :=
  ⟨rfl, by decide, by decide,
    c9_magic_amended 100000 200000 s9b rfl (by decide) 7 0 (by decide)⟩

/-- Witness for C10 at the concrete racing-close state s10. -/
theorem c10_handlers_amended_witness :
    CheckConnectionId s10 (BuildConnectionId 5 0 0) ≠ InvalidIndex
      ∧ CheckConnectionId s10 (BuildConnectionId 5 0 0) < s10.mgr.length
      ∧ (s10.mgr.getD (CheckConnectionId s10 (BuildConnectionId 5 0 0))
          emptySlot).conn = none
      ∧ (OnRecvEventWin s10 (BuildConnectionId 5 0 0) 50 = some s10
        ∧ OnSendEventWin s10 (BuildConnectionId 5 0 0) 50 = some s10) :=
  ⟨by decide, by decide, by decide,
    c10_handlers_amended s10 (BuildConnectionId 5 0 0) 50
      (by decide) (by decide) (by decide)⟩

end Raptor
